import Mathlib

/-!
Verification development for the jewelry photo-enhancement orchestration layer.

The repository contains several variants of the same services (the bundled
sources hold multiple revisions of each file).  We shallowly embed the
orchestration code of each cited variant:

* `Part000`  : the client-side service with `generateWithRetry` and the
  sequential `generateThematicImages` loop (src/unnamed/part_000; the function
  `generateImageWithRetry` in the first document of src/unnamed/part_002 is
  textually identical and is covered by the same definitions).
* `GS`       : src/services/geminiService.ts (first document), whose
  `generateThematicImages` issues the three style requests through
  `Promise.all`, and whose `checkVideoOperation` signs video URLs.
* `EJ`       : the `enhanceJewelryImage` variant and its `generateWithRetry`
  (third document of src/unnamed/part_002), which returns `null` on a
  success response without image data and substitutes a default theme.
* `AppMain`  : the reducer-based App (first document of src/App.tsx).
* `AppVideo` : the video-polling App (second document of src/App.tsx).
* `EnhanceApi`, `VideoStatusApi` : the serverless handlers
  (first documents of src/api/enhance.ts and src/api/video-status.ts).

Network effects are modelled by an explicit oracle giving the outcome of the
k-th provider call, and each run is reported as a trace of events
(`Ev.call prompt` for an issued request, `Ev.wait ms` for an awaited delay)
together with a result (`Except` models resolve/reject of the promise).
The long creative prompt texts are abbreviated to their leading sentences:
the specification places the prompt copy itself out of scope, and only the
placeholder structure and mutual distinctness of the style texts matter to
the orchestration; the placeholders and surrounding template structure are
kept exactly.  `jsReplaceOnce` models JavaScript `String.replace` with a
string pattern for replacement strings that contain no dollar escape
sequences (none of the themes and styles considered here do).
-/

set_option maxRecDepth 40000

/-- Kinds of externally observable events of a run: an issued provider
request carrying its prompt, or an awaited delay in milliseconds. -/
inductive Ev where
  | call (prompt : String)
  | wait (ms : Nat)
deriving DecidableEq

instance {ε α : Type} [DecidableEq ε] [DecidableEq α] : DecidableEq (Except ε α) :=
  fun a b =>
    match a, b with
    | Except.ok x, Except.ok y =>
      if h : x = y then isTrue (by rw [h]) else isFalse (fun hc => h (Except.ok.inj hc))
    | Except.error x, Except.error y =>
      if h : x = y then isTrue (by rw [h]) else isFalse (fun hc => h (Except.error.inj hc))
    | Except.ok _, Except.error _ => isFalse (fun hc => Except.noConfusion hc)
    | Except.error _, Except.ok _ => isFalse (fun hc => Except.noConfusion hc)

/-- Result of running a piece of orchestration code: the event trace in
execution order and the final resolve/reject value. -/
structure Run (α : Type) where
  trace : List Ev
  result : Except String α
deriving DecidableEq

/-- Number of provider requests issued in a trace. -/
def numCalls (tr : List Ev) : Nat :=
  (tr.filter (fun e => match e with | Ev.call _ => true | Ev.wait _ => false)).length

/-- The delays of a trace, in order. -/
def waitsOf (tr : List Ev) : List Nat :=
  tr.filterMap (fun e => match e with | Ev.call _ => none | Ev.wait m => some m)

/-- Helper for `waitsBetweenCalls`: `acc` is the delay accumulated since the
last request, or `none` before the first request. -/
def waitsBetweenCallsAux : List Ev → Option Nat → List Nat
  | [], _ => []
  | Ev.wait _ :: t, none => waitsBetweenCallsAux t none
  | Ev.wait m :: t, some a => waitsBetweenCallsAux t (some (a + m))
  | Ev.call _ :: t, none => waitsBetweenCallsAux t (some 0)
  | Ev.call _ :: t, some a => a :: waitsBetweenCallsAux t (some 0)

/-- For each pair of consecutive provider requests in a trace, the total
delay awaited between them. -/
def waitsBetweenCalls (tr : List Ev) : List Nat :=
  waitsBetweenCallsAux tr none

/-- First index at which `pat` occurs in `s` (as lists of characters),
mirroring JavaScript `String.indexOf` for string patterns. -/
def findSub : List Char → List Char → Option Nat
  | s, pat =>
    if pat.isPrefixOf s then some 0
    else match s with
      | [] => none
      | _ :: t => (findSub t pat).map (· + 1)

/-- Substring test, mirroring JavaScript `String.includes`. -/
def containsSub (s pat : String) : Bool :=
  (findSub s.data pat.data).isSome

/-- JavaScript `String.replace` with a string pattern: replaces the first
occurrence only (dollar escape sequences in `rep` are not modelled). -/
def jsReplaceOnce (s pat rep : String) : String :=
  match findSub s.data pat.data with
  | none => s
  | some i => ⟨s.data.take i ++ rep.data ++ s.data.drop (i + pat.data.length)⟩

/-- JavaScript `String.prototype.trim`: removes whitespace at both ends. -/
def jsTrim (s : String) : String :=
  ⟨((s.data.dropWhile Char.isWhitespace).reverse.dropWhile Char.isWhitespace).reverse⟩

/-- JavaScript `String.prototype.toLowerCase` (ASCII letters suffice for the
error messages classified by this code base). -/
def jsToLowerCase (s : String) : String := ⟨s.data.map Char.toLower⟩

/-- JavaScript truthiness of an optional string value: `undefined`/`null`
and the empty string are falsy. -/
def jsTruthy : Option String → Bool
  | none => false
  | some s => s ≠ ""

/-- Outcome of one provider `generateContent` call as observed by the retry
wrappers: the response resolves and some part carries inline image data
`d` (`ok d`); the response resolves but no part carries inline data
(`noData`); or the call rejects with an error whose message is `m`
(`err m`). -/
inductive Outcome where
  | ok (data : String)
  | noData
  | err (msg : String)
deriving DecidableEq

namespace Part000

/-- Error classification of the retry wrappers: transient rate-limit errors
are detected by substring matching on the lowercased message. -/
def isRateLimitError (msg : String) : Bool :=
  let m := jsToLowerCase msg
  containsSub m "429" || containsSub m "resource_exhausted" || containsSub m "quota"

/-- Message thrown when a success response carries no image data. -/
def noDataMsg : String := "La respuesta de la API no contenía datos de imagen."

/-- Message thrown after the retry loop exits without returning. -/
def exhaustedMsg : String :=
  "Límite de peticiones excedido. No se pudo procesar la imagen después de varios intentos."

/-- `ok o` when the call resolved with first inline part `o`
(`none` = no image part), `err m` when it rejected. -/
def isTransient : Outcome → Bool
  | Outcome.ok _ => false
  | Outcome.noData => false
  | Outcome.err m => isRateLimitError m

/-- The `while (attempt < maxRetries)` loop of `generateWithRetry`
(src/unnamed/part_000 lines 69-109; identical to `generateImageWithRetry`
in src/unnamed/part_002 lines 71-111).  `outcomes k` is the outcome of the
k-th provider call of the whole session and `callIdx` the index of the next
call; `fuel` maintains the invariant `fuel = maxRetries - attempt`, so
`fuel = 0` is the loop exit `attempt ≥ maxRetries`.  A success response
without image data throws `noDataMsg` inside the `try`, so it reaches the
same `catch` classification as a rejected call. -/
def retryLoop (outcomes : Nat → Outcome) (prompt : String) (maxRetries : Nat) :
    Nat → Nat → Nat → Nat → Run String
  | 0, _, _, _ => ⟨[], Except.error exhaustedMsg⟩
  | fuel + 1, attempt, currentDelay, callIdx =>
    match outcomes callIdx with
    | Outcome.ok d => ⟨[Ev.call prompt], Except.ok d⟩
    | Outcome.noData =>
      if isRateLimitError noDataMsg ∧ attempt < maxRetries - 1 then
        let r := retryLoop outcomes prompt maxRetries fuel (attempt + 1)
          (currentDelay * 2) (callIdx + 1)
        ⟨Ev.call prompt :: Ev.wait currentDelay :: r.trace, r.result⟩
      else ⟨[Ev.call prompt], Except.error noDataMsg⟩
    | Outcome.err m =>
      if isRateLimitError m ∧ attempt < maxRetries - 1 then
        let r := retryLoop outcomes prompt maxRetries fuel (attempt + 1)
          (currentDelay * 2) (callIdx + 1)
        ⟨Ev.call prompt :: Ev.wait currentDelay :: r.trace, r.result⟩
      else ⟨[Ev.call prompt], Except.error m⟩

/-- `generateWithRetry` of src/unnamed/part_000 with its defaults
(`maxRetries = 3`, initial `currentDelay = 5000`). -/
def generateWithRetry (outcomes : Nat → Outcome) (prompt : String)
    (maxRetries : Nat := 3) (callIdx : Nat := 0) : Run String :=
  retryLoop outcomes prompt maxRetries maxRetries 0 5000 callIdx

end Part000

example :
    (Part000.generateWithRetry (fun _ => Outcome.err "429") "p").trace =
      [Ev.call "p", Ev.wait 5000, Ev.call "p", Ev.wait 10000, Ev.call "p"] := by
  decide

example :
    (Part000.generateWithRetry (fun _ => Outcome.err "429") "p").result =
      Except.error "429" := by
  decide

example :
    (Part000.generateWithRetry (fun k => if k = 0 then Outcome.err "quota hit"
      else Outcome.ok "img") "p").trace =
      [Ev.call "p", Ev.wait 5000, Ev.call "p"] := by
  decide

example :
    (Part000.generateWithRetry (fun _ => Outcome.noData) "p").result =
      Except.error Part000.noDataMsg := by
  decide

@[simp] theorem numCalls_nil : numCalls [] = 0 := rfl

@[simp] theorem numCalls_call (p : String) (tr : List Ev) :
    numCalls (Ev.call p :: tr) = numCalls tr + 1 := by
  simp [numCalls, List.filter]

@[simp] theorem numCalls_wait (m : Nat) (tr : List Ev) :
    numCalls (Ev.wait m :: tr) = numCalls tr := by
  simp [numCalls, List.filter]

@[simp] theorem waitsOf_nil : waitsOf [] = [] := rfl

@[simp] theorem waitsOf_call (p : String) (tr : List Ev) :
    waitsOf (Ev.call p :: tr) = waitsOf tr := by
  simp [waitsOf, List.filterMap]

@[simp] theorem waitsOf_wait (m : Nat) (tr : List Ev) :
    waitsOf (Ev.wait m :: tr) = m :: waitsOf tr := by
  simp [waitsOf, List.filterMap]

/-- If every provider call has a transient outcome, each loop iteration of
`Part000.retryLoop` issues one call and the run ends in an error; with the
invariant `attempt + fuel = maxRetries` it issues exactly `fuel` calls. -/
theorem Part000.retryLoop_allTransient (outcomes : Nat → Outcome) (prompt : String)
    (maxRetries : Nat) (h : ∀ k, Part000.isTransient (outcomes k) = true) :
    ∀ fuel attempt currentDelay callIdx, attempt + fuel = maxRetries →
      numCalls (Part000.retryLoop outcomes prompt maxRetries fuel attempt
        currentDelay callIdx).trace = fuel ∧
      ∃ m, (Part000.retryLoop outcomes prompt maxRetries fuel attempt
        currentDelay callIdx).result = Except.error m := by
  intro fuel
  induction fuel with
  | zero =>
    intro attempt currentDelay callIdx _
    exact ⟨rfl, Part000.exhaustedMsg, rfl⟩
  | succ f ih =>
    intro attempt currentDelay callIdx hinv
    have htr := h callIdx
    cases houtcome : outcomes callIdx with
    | ok d => rw [houtcome] at htr; simp [Part000.isTransient] at htr
    | noData => rw [houtcome] at htr; simp [Part000.isTransient] at htr
    | err m =>
      rw [houtcome] at htr
      simp only [Part000.isTransient] at htr
      by_cases hguard : attempt < maxRetries - 1
      · have hf : 0 < f := by omega
        have := ih (attempt + 1) (currentDelay * 2) (callIdx + 1) (by omega)
        simp only [Part000.retryLoop, houtcome, htr, hguard, and_self, if_true,
          numCalls_call, numCalls_wait]
        exact ⟨by rw [this.1], this.2⟩
      · have hf : f = 0 := by omega
        subst hf
        simp only [Part000.retryLoop, houtcome]
        rw [if_neg (by rintro ⟨_, hc⟩; exact hguard hc)]
        exact ⟨rfl, m, rfl⟩

/-- C1: if the provider call fails with a transient rate-limit error
(message containing 429, resource_exhausted or quota) on every attempt,
`generateWithRetry` with maximum retry count `maxRetries` issues exactly
`maxRetries` provider calls and then fails with an error, issuing no
further network attempts. -/
theorem retry_bound_transient_exhaustion (maxRetries : Nat)
    (outcomes : Nat → Outcome) (prompt : String)
    (h : ∀ k, Part000.isTransient (outcomes k) = true) :
    numCalls (Part000.generateWithRetry outcomes prompt maxRetries).trace = maxRetries ∧
    ∃ m, (Part000.generateWithRetry outcomes prompt maxRetries).result = Except.error m :=
  Part000.retryLoop_allTransient outcomes prompt maxRetries h maxRetries 0 5000 0
    (by omega)

theorem retry_bound_transient_exhaustion_witness :
    (∀ k, Part000.isTransient ((fun _ : Nat => Outcome.err "429 quota") k) = true) ∧
    numCalls (Part000.generateWithRetry (fun _ : Nat => Outcome.err "429 quota") "p" 3).trace = 3 ∧
    ∃ m, (Part000.generateWithRetry (fun _ : Nat => Outcome.err "429 quota") "p" 3).result =
      Except.error m :=
  ⟨fun _ => rfl,
    (retry_bound_transient_exhaustion 3 (fun _ : Nat => Outcome.err "429 quota") "p"
      (fun _ => rfl)).1,
    (retry_bound_transient_exhaustion 3 (fun _ : Nat => Outcome.err "429 quota") "p"
      (fun _ => rfl)).2⟩

theorem range_map_double (c N : Nat) :
    (List.range (N + 1)).map (fun i => c * 2 ^ i)
      = c :: (List.range N).map (fun i => c * 2 * 2 ^ i) := by
  rw [List.range_succ_eq_map]
  simp only [List.map_cons, List.map_map, pow_zero, mul_one, List.cons.injEq, true_and]
  apply List.map_congr_left
  intro a _
  simp only [Function.comp_apply]
  rw [pow_succ]
  ring

/-- If, starting at call index `callIdx`, the next `N` provider calls have
transient outcomes and call `callIdx + N` succeeds, `Part000.retryLoop`
performs the backoff waits `currentDelay * 2 ^ 0, …, currentDelay * 2 ^ (N-1)`
in order (invariant `attempt + fuel = maxRetries`, `N < fuel`). -/
theorem Part000.retryLoop_waits (outcomes : Nat → Outcome) (prompt : String)
    (maxRetries : Nat) (d : String) :
    ∀ N fuel attempt currentDelay callIdx, attempt + fuel = maxRetries → N < fuel →
      (∀ k, k < N → Part000.isTransient (outcomes (callIdx + k)) = true) →
      outcomes (callIdx + N) = Outcome.ok d →
      waitsOf (Part000.retryLoop outcomes prompt maxRetries fuel attempt
        currentDelay callIdx).trace
        = (List.range N).map (fun i => currentDelay * 2 ^ i) := by
  intro N
  induction N with
  | zero =>
    intro fuel attempt currentDelay callIdx _ hlt hok
    match fuel, hlt with
    | f + 1, _ =>
      intro hk
      simp only [Nat.add_zero] at hk
      simp [Part000.retryLoop, hk]
  | succ n ih =>
    intro fuel attempt currentDelay callIdx hinv hlt htrans hok
    match fuel, hlt with
    | f + 1, hlt =>
      have h0 := htrans 0 (by omega)
      simp only [Nat.add_zero] at h0
      cases houtcome : outcomes callIdx with
      | ok e => rw [houtcome] at h0; simp [Part000.isTransient] at h0
      | noData => rw [houtcome] at h0; simp [Part000.isTransient] at h0
      | err m =>
        rw [houtcome] at h0
        simp only [Part000.isTransient] at h0
        have hguard : attempt < maxRetries - 1 := by omega
        have ihx := ih f (attempt + 1) (currentDelay * 2) (callIdx + 1)
          (by omega) (by omega)
          (fun k hk => by
            have := htrans (k + 1) (by omega)
            rwa [show callIdx + (k + 1) = callIdx + 1 + k by omega] at this)
          (by rwa [show callIdx + 1 + n = callIdx + (n + 1) by omega])
        simp only [Part000.retryLoop, houtcome, h0, hguard, and_self, if_true,
          waitsOf_call, waitsOf_wait]
        rw [ihx, range_map_double]

/-- C2: in a run of `generateWithRetry` whose first `N` provider calls fail
with transient rate-limit errors (`N` < `maxRetries`) before succeeding, a
wait precedes each re-attempt; the wait before attempt 2 is exactly 5000 ms
and the wait before attempt `k + 1` is exactly double the wait before
attempt `k` (5000 ms, 10000 ms, 20000 ms, …). -/
theorem backoff_waits_double_from_5000 (maxRetries N : Nat)
    (outcomes : Nat → Outcome) (prompt d : String)
    (hN : N < maxRetries)
    (htrans : ∀ k, k < N → Part000.isTransient (outcomes k) = true)
    (hok : outcomes N = Outcome.ok d) :
    waitsOf (Part000.generateWithRetry outcomes prompt maxRetries).trace
      = (List.range N).map (fun i => 5000 * 2 ^ i) ∧
    (0 < N →
      (waitsOf (Part000.generateWithRetry outcomes prompt maxRetries).trace)[0]?
        = some 5000) ∧
    (∀ i w w2,
      (waitsOf (Part000.generateWithRetry outcomes prompt maxRetries).trace)[i]?
        = some w →
      (waitsOf (Part000.generateWithRetry outcomes prompt maxRetries).trace)[i + 1]?
        = some w2 →
      w2 = 2 * w) := by
  have hmain :
      waitsOf (Part000.generateWithRetry outcomes prompt maxRetries).trace
        = (List.range N).map (fun i => 5000 * 2 ^ i) :=
    Part000.retryLoop_waits outcomes prompt maxRetries d N maxRetries 0 5000 0
      (by omega) hN (fun k hk => by simpa using htrans k hk) (by simpa using hok)
  refine ⟨hmain, ?_, ?_⟩
  · intro hpos
    rw [hmain]
    rw [List.getElem?_map, List.getElem?_range hpos]
    simp
  · intro i w w2 hw hw2
    rw [hmain] at hw hw2
    rw [List.getElem?_map] at hw hw2
    have hi : i < N := by
      by_contra hge
      rw [List.getElem?_eq_none (by simpa using Nat.le_of_not_lt hge)] at hw
      simp at hw
    have hi2 : i + 1 < N := by
      by_contra hge
      rw [List.getElem?_eq_none (by simpa using Nat.le_of_not_lt hge)] at hw2
      simp at hw2
    rw [List.getElem?_range hi] at hw
    rw [List.getElem?_range hi2] at hw2
    simp only [Option.map_some', Option.some.injEq] at hw hw2
    subst hw
    subst hw2
    rw [pow_succ]
    ring

theorem backoff_waits_double_from_5000_witness :
    ((2 < 3) ∧ (∀ k, k < 2 →
        Part000.isTransient ((fun k => if k < 2 then Outcome.err "429" else Outcome.ok "img") k)
          = true) ∧
      (fun k => if k < 2 then Outcome.err "429" else Outcome.ok "img") 2 = Outcome.ok "img") ∧
    waitsOf (Part000.generateWithRetry
        (fun k => if k < 2 then Outcome.err "429" else Outcome.ok "img") "p" 3).trace
      = (List.range 2).map (fun i => 5000 * 2 ^ i) :=
  ⟨⟨by decide, by decide, by decide⟩,
    (backoff_waits_double_from_5000 3 2
      (fun k => if k < 2 then Outcome.err "429" else Outcome.ok "img") "p" "img"
      (by decide) (by decide) (by decide)).1⟩

namespace EJ

/-- The `while (attempt < maxRetries)` loop of `generateWithRetry` in the
`enhanceJewelryImage` variant (third document of src/unnamed/part_002,
lines 365-414).  Its error classification and exhaustion message are
textually identical to the part_000 wrapper and are reused; the one
difference is the success-without-image branch, which returns `null`
(modelled `Except.ok none`) instead of throwing. -/
def retryLoop (outcomes : Nat → Outcome) (prompt : String) (maxRetries : Nat) :
    Nat → Nat → Nat → Nat → Run (Option String)
  | 0, _, _, _ => ⟨[], Except.error Part000.exhaustedMsg⟩
  | fuel + 1, attempt, currentDelay, callIdx =>
    match outcomes callIdx with
    | Outcome.ok d => ⟨[Ev.call prompt], Except.ok (some d)⟩
    | Outcome.noData => ⟨[Ev.call prompt], Except.ok none⟩
    | Outcome.err m =>
      if Part000.isRateLimitError m ∧ attempt < maxRetries - 1 then
        let r := retryLoop outcomes prompt maxRetries fuel (attempt + 1)
          (currentDelay * 2) (callIdx + 1)
        ⟨Ev.call prompt :: Ev.wait currentDelay :: r.trace, r.result⟩
      else ⟨[Ev.call prompt], Except.error m⟩

/-- `generateWithRetry` of the `enhanceJewelryImage` variant with its
defaults (`maxRetries = 3`, initial `currentDelay = 5000`). -/
def generateWithRetry (outcomes : Nat → Outcome) (prompt : String)
    (maxRetries : Nat := 3) (callIdx : Nat := 0) : Run (Option String) :=
  retryLoop outcomes prompt maxRetries maxRetries 0 5000 callIdx

end EJ

/-- C7 (counterexample): not every retry wrapper fails with an error when a
provider call succeeds without an image payload.  The `generateWithRetry`
of the `enhanceJewelryImage` variant (src/unnamed/part_002 lines 390-395)
resolves with a null result — it does not fail — after a single call. -/
theorem no_data_claim_fails_on_enhance_variant :
    (EJ.generateWithRetry (fun _ : Nat => Outcome.noData) "p").result
        = Except.ok none ∧
    numCalls (EJ.generateWithRetry (fun _ : Nat => Outcome.noData) "p").trace = 1 ∧
    ∀ m, (EJ.generateWithRetry (fun _ : Nat => Outcome.noData) "p").result
        ≠ Except.error m := by
  refine ⟨rfl, rfl, ?_⟩
  intro m hc
  simp [EJ.generateWithRetry, EJ.retryLoop] at hc

/-- C7 (amended): a success response without image payload is never
retried, whatever retry budget remains.  The part_000/part_002
`generateWithRetry`/`generateImageWithRetry` fails immediately with the
no-data error after that single call, while the `enhanceJewelryImage`
variant of part_002 instead resolves immediately with a null result (its
caller converts the missing result into an error afterwards). -/
theorem no_data_stops_immediately (maxRetries : Nat) (outcomes : Nat → Outcome)
    (prompt : String) (hmax : 1 ≤ maxRetries) (h0 : outcomes 0 = Outcome.noData) :
    Part000.generateWithRetry outcomes prompt maxRetries
        = ⟨[Ev.call prompt], Except.error Part000.noDataMsg⟩ ∧
    EJ.generateWithRetry outcomes prompt maxRetries
        = ⟨[Ev.call prompt], Except.ok none⟩ := by
  match maxRetries, hmax with
  | m + 1, _ =>
    constructor
    · simp only [Part000.generateWithRetry, Part000.retryLoop, h0]
      rw [if_neg]
      rintro ⟨hl, -⟩
      exact absurd hl (by decide)
    · simp [EJ.generateWithRetry, EJ.retryLoop, h0]

theorem no_data_stops_immediately_witness :
    (1 ≤ 3 ∧ (fun _ : Nat => Outcome.noData) 0 = Outcome.noData) ∧
    Part000.generateWithRetry (fun _ : Nat => Outcome.noData) "p" 3
        = ⟨[Ev.call "p"], Except.error Part000.noDataMsg⟩ ∧
    EJ.generateWithRetry (fun _ : Nat => Outcome.noData) "p" 3
        = ⟨[Ev.call "p"], Except.ok none⟩ :=
  ⟨⟨by decide, rfl⟩,
    no_data_stops_immediately 3 (fun _ : Nat => Outcome.noData) "p" (by decide) rfl⟩

namespace Part000

/-- The `{{THEME}}` placeholder of the thematic base template. -/
def themePat : String := "\x7b\x7bTHEME\x7d\x7d"

/-- The `{{STYLE_GUIDANCE}}` placeholder of the thematic base template. -/
def stylePat : String := "\x7b\x7bSTYLE_GUIDANCE\x7d\x7d"

/-- `thematicBasePrompt` of src/unnamed/part_000 (and, textually identical,
`basePrompt` of the third document of src/unnamed/part_002).  The creative
prose is abbreviated to its leading words — the spec scopes the prompt copy
out — but the line structure and the two placeholders are kept exactly. -/
def thematicBasePrompt : String :=
  "\nTASK: You are a world-class jewelry product photographer. [creative copy abbreviated]\n\nTHEME: \"\x7b\x7bTHEME\x7d\x7d\"\nCOMPOSITION STYLE: \"\x7b\x7bSTYLE_GUIDANCE\x7d\x7d\"\n\nCRITICAL RULES: [creative copy abbreviated]\n"

/-- The three style-guidance fragments of src/unnamed/part_000 (the same
three strings appear in src/services/geminiService.ts and in the third
document of src/unnamed/part_002); each is abbreviated to its distinctive
leading sentence. -/
def creativeStyles : List String :=
  ["Elegant Still Life: Create a classic product shot. [creative copy abbreviated]",
   "Immersive Scene: Place the jewelry naturally within a complete, but simple, scene that evokes the theme. [creative copy abbreviated]",
   "Macro & Texture: Focus on a close-up, textural interpretation of the theme. [creative copy abbreviated]"]

/-- One substituted thematic prompt: the base template with the theme and
one style fragment substituted for the placeholders (two chained
`String.replace` calls in the source). -/
def thematicPrompt (userTheme styleGuidance : String) : String :=
  jsReplaceOnce (jsReplaceOnce thematicBasePrompt themePat userTheme)
    stylePat styleGuidance

/-- The `prompts` array built by `generateThematicImages`. -/
def thematicPrompts (userTheme : String) : List String :=
  creativeStyles.map (thematicPrompt userTheme)

/-- JavaScript `Array.prototype.indexOf` on string arrays (first index,
`-1` when absent). -/
def jsIndexOf (l : List String) (x : String) : Int :=
  go 0 l
where
  go : Nat → List String → Int
    | _, [] => -1
    | i, a :: t => if a == x then (i : Int) else go (i + 1) t

/-- Validation message for an empty thematic theme. -/
def validationMsg : String := "El tema para la temporada creativa no puede estar vacío."

/-- Message of the dead-code length check after the loop. -/
def lenMismatchMsg : String :=
  "No se pudieron generar todas las variaciones de la imagen solicitadas."

/-- Safety rewording of the outer catch of `generateThematicImages`. -/
def safetyThematicMsg : String :=
  "La solicitud fue bloqueada por políticas de seguridad. Intenta con una imagen o tema diferente."

/-- The `for (const prompt of prompts)` loop of `generateThematicImages`
(src/unnamed/part_000 lines 157-169): each prompt goes through
`generateWithRetry`; after a successful result, a 5000 ms delay is awaited
when `prompts.indexOf(prompt) < prompts.length - 1`; a thrown error aborts
the loop.  `callIdx` indexes the global provider-call oracle. -/
def thematicLoop (outcomes : Nat → Outcome) (allPrompts : List String) :
    List String → Nat → List String → Run (List String)
  | [], _, results =>
    if results.length ≠ allPrompts.length then ⟨[], Except.error lenMismatchMsg⟩
    else ⟨[], Except.ok results⟩
  | p :: rest, callIdx, results =>
    let r := generateWithRetry outcomes p 3 callIdx
    match r.result with
    | Except.error m => ⟨r.trace, Except.error m⟩
    | Except.ok d =>
      if allPrompts.length > 1 ∧ jsIndexOf allPrompts p < (allPrompts.length : Int) - 1 then
        let rst := thematicLoop outcomes allPrompts rest (callIdx + numCalls r.trace)
          (results ++ [d])
        ⟨r.trace ++ Ev.wait 5000 :: rst.trace, rst.result⟩
      else
        let rst := thematicLoop outcomes allPrompts rest (callIdx + numCalls r.trace)
          (results ++ [d])
        ⟨r.trace ++ rst.trace, rst.result⟩

/-- `generateThematicImages` of src/unnamed/part_000 (lines 139-180;
textually identical in the first document of src/unnamed/part_002):
validates the theme, builds the three substituted prompts, runs them
sequentially with inter-call delays, and rewords errors in its catch. -/
def generateThematicImages (outcomes : Nat → Outcome) (userTheme : String) :
    Run (List String) :=
  if jsTrim userTheme = "" then ⟨[], Except.error validationMsg⟩
  else
    let prompts := thematicPrompts userTheme
    let r := thematicLoop outcomes prompts prompts 0 []
    match r.result with
    | Except.ok res => ⟨r.trace, Except.ok res⟩
    | Except.error m =>
      ⟨r.trace, Except.error (if containsSub m "safety" then safetyThematicMsg
        else "Error al generar imágenes de temporada: " ++ m)⟩

end Part000

namespace GS

/-- `thematicBasePrompt` of src/services/geminiService.ts (first document),
abbreviated like `Part000.thematicBasePrompt`; placeholders kept exactly. -/
def thematicBasePrompt : String :=
  "\nTASK: You are a world-class jewelry product photographer AI. [creative copy abbreviated]\n\nTHEME: \"\x7b\x7bTHEME\x7d\x7d\"\nCOMPOSITION STYLE: \"\x7b\x7bSTYLE_GUIDANCE\x7d\x7d\"\n\n**CRITICAL RULES:** [creative copy abbreviated]\n"

/-- `creativeStyles` of src/services/geminiService.ts: the same three
strings as in src/unnamed/part_000. -/
def creativeStyles : List String := Part000.creativeStyles

/-- The `prompts` array of `GS.generateThematicImages`. -/
def thematicPrompts (userTheme : String) : List String :=
  creativeStyles.map (fun styleGuidance =>
    jsReplaceOnce (jsReplaceOnce thematicBasePrompt Part000.themePat userTheme)
      Part000.stylePat styleGuidance)

/-- `Promise.all` over the first `n` provider responses: rejects with the
lowest-index rejection, otherwise resolves with the list of values.  A
value `some d` means `extractBase64Image` found data `d` in the first part
of the response; `none` means it returned `null`. -/
def promiseAll (res : Nat → Except String (Option String)) :
    Nat → Except String (List (Option String))
  | 0 => Except.ok []
  | n + 1 =>
    match promiseAll res n, res n with
    | Except.error m, _ => Except.error m
    | Except.ok _, Except.error m => Except.error m
    | Except.ok l, Except.ok o => Except.ok (l ++ [o])

/-- Error thrown when no thematic image could be extracted. -/
def noImagesMsg : String := "Failed to generate any thematic images from the AI response."

/-- `generateThematicImages` of src/services/geminiService.ts lines
100-133: builds the three prompts, starts all three `generateContent`
calls at once (`prompts.map` before any await), awaits them with
`Promise.all`, drops responses without extractable image data, returns
the remaining images, and throws only when none is left. -/
def generateThematicImages (userTheme : String)
    (res : Nat → Except String (Option String)) : Run (List String) :=
  let prompts := thematicPrompts userTheme
  let trace := prompts.map Ev.call
  match promiseAll res prompts.length with
  | Except.error m => ⟨trace, Except.error m⟩
  | Except.ok opts =>
    let enhancedImages := opts.filterMap id
    if enhancedImages.isEmpty then ⟨trace, Except.error noImagesMsg⟩
    else ⟨trace, Except.ok enhancedImages⟩

end GS

example :
    (Part000.generateThematicImages (fun _ => Outcome.ok "img") "Otoño").result
      = Except.ok ["img", "img", "img"] := by
  decide

example :
    numCalls (Part000.generateThematicImages (fun _ => Outcome.ok "img") "Otoño").trace
      = 3 := by
  decide

example :
    waitsBetweenCalls
      (Part000.generateThematicImages (fun _ => Outcome.ok "img") "Otoño").trace
      = [5000, 5000] := by
  decide

example :
    (Part000.generateThematicImages (fun _ => Outcome.ok "img") "   ").result
      = Except.error Part000.validationMsg := by
  decide

example :
    (GS.generateThematicImages "Otoño" (fun _ => Except.ok (some "img"))).result
      = Except.ok ["img", "img", "img"] := by
  decide

namespace GS

/-- `catalogPrompt` of src/services/geminiService.ts, abbreviated. -/
def catalogPrompt : String :=
  "\nYou are a precision digital imaging specialist AI. [creative copy abbreviated]\n"

/-- Error thrown when the catalog response carries no image data. -/
def catalogFailMsg : String := "Failed to generate catalog image from the AI response."

/-- `generateCatalogImage` of src/services/geminiService.ts lines 76-98:
one `generateContent` call; `extractBase64Image` yields `some d` or
`none`, and `none` is converted into a thrown error. -/
def generateCatalogImage (res : Nat → Except String (Option String)) :
    Run (List String) :=
  match res 0 with
  | Except.error m => ⟨[Ev.call catalogPrompt], Except.error m⟩
  | Except.ok none => ⟨[Ev.call catalogPrompt], Except.error catalogFailMsg⟩
  | Except.ok (some d) => ⟨[Ev.call catalogPrompt], Except.ok [d]⟩

end GS

namespace EJ

/-- Default theme substituted by `enhanceJewelryImage` when the trimmed
user theme is empty. -/
def defaultTheme : String :=
  "A clean, professional studio background with a soft gradient from light gray to white."

/-- Message when `process.env.API_KEY` is unset. -/
def apiKeyMsg : String :=
  "La clave API no ha sido configurada. El procesamiento no puede continuar."

/-- Fallback message of the `enhanceJewelryImage` catch. -/
def genericMsg : String :=
  "Ocurrió un error inesperado al contactar la API. Verifica tu conexión o inténtalo más tarde."

/-- Rate-limit rewording of the `enhanceJewelryImage` catch. -/
def rateMsg : String :=
  "Límite de peticiones excedido (Rate Limit). La API está recibiendo demasiadas solicitudes. Por favor, espera unos minutos antes de volver a intentarlo."

/-- Invalid-key rewording of the `enhanceJewelryImage` catch. -/
def keyMsg : String :=
  "La clave API proporcionada no es válida o ha caducado. Por favor, verifica tu configuración."

/-- Safety rewording of the `enhanceJewelryImage` catch. -/
def safetyMsg : String :=
  "La solicitud fue bloqueada por políticas de seguridad. Intenta con una imagen o descripción de fondo diferente."

/-- The catch of `enhanceJewelryImage` (src/unnamed/part_002 lines
464-480): reword the error by substring classification of the lowercased
message. -/
def classifyCatch (m : String) : String :=
  let errorMessage := jsToLowerCase m
  if containsSub errorMessage "429" || containsSub errorMessage "resource_exhausted"
      || containsSub errorMessage "quota" then rateMsg
  else if containsSub errorMessage "api key not valid" then keyMsg
  else if containsSub errorMessage "safety" then safetyMsg
  else genericMsg

/-- The `stylesToGenerate.map` of `enhanceJewelryImage` (lines 438-445):
look up each style index (a missing index throws) and substitute theme and
style into the base template (textually the same template and styles as
part_000, so `Part000.thematicPrompt` is reused). -/
def buildPrompts (theme : String) : List Nat → Except String (List String)
  | [] => Except.ok []
  | i :: t =>
    match Part000.creativeStyles.get? i with
    | none => Except.error ("Style with index " ++ toString i ++ " not found.")
    | some styleGuidance =>
      match buildPrompts theme t with
      | Except.error m => Except.error m
      | Except.ok ps => Except.ok (Part000.thematicPrompt theme styleGuidance :: ps)

/-- The `for (const prompt of prompts)` loop of `enhanceJewelryImage`
(lines 447-454): run each prompt through the EJ retry wrapper, collect the
possibly-null results, and await a 5000 ms delay after each call whenever
more than one prompt was requested. -/
def enhanceLoop (outcomes : Nat → Outcome) (promptsLen : Nat) :
    List String → Nat → List (Option String) → Run (List (Option String))
  | [], _, results => ⟨[], Except.ok results⟩
  | p :: rest, callIdx, results =>
    let r := generateWithRetry outcomes p 3 callIdx
    match r.result with
    | Except.error m => ⟨r.trace, Except.error m⟩
    | Except.ok o =>
      if promptsLen > 1 then
        let rst := enhanceLoop outcomes promptsLen rest (callIdx + numCalls r.trace)
          (results ++ [o])
        ⟨r.trace ++ Ev.wait 5000 :: rst.trace, rst.result⟩
      else
        let rst := enhanceLoop outcomes promptsLen rest (callIdx + numCalls r.trace)
          (results ++ [o])
        ⟨r.trace ++ rst.trace, rst.result⟩

/-- `enhanceJewelryImage` of src/unnamed/part_002 (third document, lines
418-481): checks the API key, substitutes a default theme when the trimmed
user theme is empty, builds the prompts for the requested style indices,
runs them sequentially through the EJ retry wrapper, drops null results,
and throws (reworded by the catch) when not every prompt produced data. -/
def enhanceJewelryImage (apiKey : Option String) (outcomes : Nat → Outcome)
    (userTheme : String) (stylesToGenerate : List Nat) : Run (List String) :=
  match apiKey with
  | none => ⟨[], Except.error apiKeyMsg⟩
  | some _ =>
    let trimmed := jsTrim userTheme
    let theme := if trimmed = "" then defaultTheme else trimmed
    match buildPrompts theme stylesToGenerate with
    | Except.error m => ⟨[], Except.error (classifyCatch m)⟩
    | Except.ok prompts =>
      let r := enhanceLoop outcomes prompts.length prompts 0 []
      match r.result with
      | Except.error m => ⟨r.trace, Except.error (classifyCatch m)⟩
      | Except.ok results =>
        let validResults := results.filterMap id
        if validResults.length ≠ prompts.length then
          ⟨r.trace, Except.error (classifyCatch Part000.lenMismatchMsg)⟩
        else ⟨r.trace, Except.ok validResults⟩

end EJ

namespace EnhanceApi

/-- Response of a serverless handler: HTTP status, number of provider
calls issued while serving the request, and the JSON payload (`ok` the
enhanced images, `error` the error message). -/
structure ApiResp where
  status : Nat
  calls : Nat
  body : Except String (List String)
deriving DecidableEq

/-- 500 body when SERVER_API_KEY is missing. -/
def cfgMsg : String := "Internal Server Error: Missing server configuration."

/-- 401 body. -/
def unauthorizedMsg : String := "Unauthorized: Invalid API Key"

/-- 400 body for missing fields. -/
def missingFieldsMsg : String :=
  "Bad Request: Missing one or more required fields: base64Image, mimeType, mode"

/-- 400 body for an unknown mode. -/
def badModeMsg : String :=
  "Bad Request: \x27mode\x27 must be either \x27catalog\x27 or \x27thematic\x27."

/-- 400 body for a missing or empty thematic theme. -/
def badThemeMsg : String :=
  "Bad Request: userTheme is required and must be a non-empty string for thematic mode."

/-- The `/api/enhance` handler of src/api/enhance.ts (first document):
method is assumed POST; `apiKey` is the bearer token extracted from the
authorization header; `userTheme` is modelled as an optional string (the
`typeof` check cannot fail under this typing).  Validation happens before
any provider call, so the `calls` field of an error response is 0. -/
def handler (SERVER_API_KEY apiKey base64Image mimeType mode userTheme : Option String)
    (res : Nat → Except String (Option String)) : ApiResp :=
  match SERVER_API_KEY with
  | none => ⟨500, 0, Except.error cfgMsg⟩
  | some sk =>
    if ¬ jsTruthy apiKey ∨ apiKey ≠ some sk then ⟨401, 0, Except.error unauthorizedMsg⟩
    else if ¬ jsTruthy base64Image ∨ ¬ jsTruthy mimeType ∨ ¬ jsTruthy mode then
      ⟨400, 0, Except.error missingFieldsMsg⟩
    else if mode ≠ some "catalog" ∧ mode ≠ some "thematic" then
      ⟨400, 0, Except.error badModeMsg⟩
    else if mode = some "thematic" ∧
        (¬ jsTruthy userTheme ∨ jsTrim (userTheme.getD "") = "") then
      ⟨400, 0, Except.error badThemeMsg⟩
    else if mode = some "catalog" then
      let r := GS.generateCatalogImage res
      match r.result with
      | Except.ok imgs => ⟨200, numCalls r.trace, Except.ok imgs⟩
      | Except.error m => ⟨500, numCalls r.trace, Except.error m⟩
    else
      let r := GS.generateThematicImages (userTheme.getD "") res
      match r.result with
      | Except.ok imgs => ⟨200, numCalls r.trace, Except.ok imgs⟩
      | Except.error m => ⟨500, numCalls r.trace, Except.error m⟩

end EnhanceApi

example :
    EnhanceApi.handler (some "k") (some "k") (some "b") (some "image/png")
      (some "thematic") (some "  ") (fun _ => Except.ok (some "img"))
      = ⟨400, 0, Except.error EnhanceApi.badThemeMsg⟩ := by
  decide

example :
    EnhanceApi.handler (some "k") (some "k") (some "b") (some "image/png")
      (some "thematic") (some "Otoño") (fun _ => Except.ok (some "img"))
      = ⟨200, 3, Except.ok ["img", "img", "img"]⟩ := by
  decide

example :
    numCalls (EJ.enhanceJewelryImage (some "k") (fun _ => Outcome.ok "img") "" [0]).trace
      = 1 := by
  decide

example :
    (EJ.enhanceJewelryImage (some "k") (fun _ => Outcome.ok "img") "" [0]).result
      = Except.ok ["img"] := by
  decide

example :
    (EJ.enhanceJewelryImage (some "k") (fun _ => Outcome.noData) "" [0]).result
      = Except.error EJ.genericMsg := by
  decide

/-- C6 (counterexample): not every thematic generation rejects an empty
theme before calling the provider.  `enhanceJewelryImage`
(src/unnamed/part_002 lines 424-435) substitutes a default studio theme
for the empty string and proceeds: one provider call is issued and the
run resolves successfully, with no validation error. -/
theorem empty_theme_claim_fails_on_enhance_variant :
    numCalls (EJ.enhanceJewelryImage (some "k") (fun _ : Nat => Outcome.ok "img")
      "" [0]).trace = 1 ∧
    (EJ.enhanceJewelryImage (some "k") (fun _ : Nat => Outcome.ok "img")
      "" [0]).result = Except.ok ["img"] := by
  constructor
  · decide
  · decide

/-- C6 (amended): `generateThematicImages` of part_000/part_002 and the
`/api/enhance` handler fail with a validation error on an empty or
whitespace-only theme before any provider call (empty trace, zero calls);
the `enhanceJewelryImage` variant instead substitutes a default theme and
proceeds (see the counterexample). -/
theorem empty_theme_rejected_before_network (userTheme : String)
    (outcomes : Nat → Outcome) (res : Nat → Except String (Option String))
    (sk b m : String) (h : jsTrim userTheme = "")
    (hsk : sk ≠ "") (hb : b ≠ "") (hm : m ≠ "") :
    Part000.generateThematicImages outcomes userTheme
        = ⟨[], Except.error Part000.validationMsg⟩ ∧
    EnhanceApi.handler (some sk) (some sk) (some b) (some m) (some "thematic")
        (some userTheme) res
        = ⟨400, 0, Except.error EnhanceApi.badThemeMsg⟩ := by
  constructor
  · simp [Part000.generateThematicImages, h]
  · simp only [EnhanceApi.handler]
    rw [if_neg, if_neg, if_neg, if_pos]
    · exact ⟨by trivial, Or.inr (by simpa using h)⟩
    · rintro ⟨-, h1⟩
      exact h1 (by trivial)
    · rintro (h1 | h1 | h1) <;> exact h1 (by simp [jsTruthy, hsk, hb, hm])
    · rintro (h1 | h1)
      · exact h1 (by simp [jsTruthy, hsk])
      · exact h1 rfl

theorem empty_theme_rejected_before_network_witness :
    (jsTrim "   " = "" ∧ ("k" : String) ≠ "" ∧ ("b" : String) ≠ ""
        ∧ ("image/png" : String) ≠ "") ∧
    Part000.generateThematicImages (fun _ : Nat => Outcome.ok "img") "   "
        = ⟨[], Except.error Part000.validationMsg⟩ ∧
    EnhanceApi.handler (some "k") (some "k") (some "b") (some "image/png")
        (some "thematic") (some "   ") (fun _ : Nat => Except.ok (some "img"))
        = ⟨400, 0, Except.error EnhanceApi.badThemeMsg⟩ :=
  ⟨⟨by decide, by decide, by decide, by decide⟩,
    empty_theme_rejected_before_network "   " (fun _ : Nat => Outcome.ok "img")
      (fun _ : Nat => Except.ok (some "img")) "k" "b" "image/png"
      (by decide) (by decide) (by decide) (by decide)⟩

/-- A loop iteration of the part_000 wrapper returns immediately on a
successful call with image data. -/
theorem Part000.retryLoop_ok (outcomes : Nat → Outcome) (prompt : String)
    (maxRetries fuel attempt currentDelay callIdx : Nat) (d : String)
    (h : outcomes callIdx = Outcome.ok d) :
    Part000.retryLoop outcomes prompt maxRetries (fuel + 1) attempt currentDelay callIdx
      = ⟨[Ev.call prompt], Except.ok d⟩ := by
  simp [Part000.retryLoop, h]

/-- `generateWithRetry` with a successful first call issues exactly that
call and returns its data. -/
theorem Part000.generateWithRetry_ok (outcomes : Nat → Outcome) (prompt : String)
    (maxRetries callIdx : Nat) (d : String) (hmax : 1 ≤ maxRetries)
    (h : outcomes callIdx = Outcome.ok d) :
    Part000.generateWithRetry outcomes prompt maxRetries callIdx
      = ⟨[Ev.call prompt], Except.ok d⟩ := by
  match maxRetries, hmax with
  | mr + 1, _ =>
    exact Part000.retryLoop_ok outcomes prompt (mr + 1) mr 0 5000 callIdx d h

/-- The sequential thematic loop of part_000 on three pairwise distinct
prompts, with every provider call succeeding: three calls in array order,
a 5000 ms delay after each non-final call. -/
theorem Part000.thematicLoop_three (outcomes : Nat → Outcome) (ds : Nat → String)
    (hok : ∀ k, outcomes k = Outcome.ok (ds k))
    (p q r : String) (hpq : p ≠ q) (hpr : p ≠ r) (hqr : q ≠ r) :
    Part000.thematicLoop outcomes [p, q, r] [p, q, r] 0 []
      = ⟨[Ev.call p, Ev.wait 5000, Ev.call q, Ev.wait 5000, Ev.call r],
         Except.ok [ds 0, ds 1, ds 2]⟩ := by
  have i0 : Part000.jsIndexOf [p, q, r] p = 0 := by
    simp [Part000.jsIndexOf, Part000.jsIndexOf.go]
  have i1 : Part000.jsIndexOf [p, q, r] q = 1 := by
    simp [Part000.jsIndexOf, Part000.jsIndexOf.go, beq_eq_false_iff_ne.mpr hpq]
  have i2 : Part000.jsIndexOf [p, q, r] r = 2 := by
    simp [Part000.jsIndexOf, Part000.jsIndexOf.go, beq_eq_false_iff_ne.mpr hpr,
      beq_eq_false_iff_ne.mpr hqr]
  have hw0 := Part000.generateWithRetry_ok outcomes p 3 0 (ds 0) (by omega) (hok 0)
  have hw1 := Part000.generateWithRetry_ok outcomes q 3 1 (ds 1) (by omega) (hok 1)
  have hw2 := Part000.generateWithRetry_ok outcomes r 3 2 (ds 2) (by omega) (hok 2)
  simp only [Part000.thematicLoop, hw0, hw1, hw2, i0, i1, i2, numCalls_call,
    numCalls_nil, List.length_cons, List.length_nil]
  norm_num

/-- C3 (amended): in the sequential variant (part_000/part_002
`generateThematicImages`), a thematic generation with a non-empty theme
and distinct substituted prompts, where the provider succeeds on every
call, issues exactly 3 requests, one per style template in fixed array
order, each prompt being the base template with the theme and that style
substituted, sequentially with exactly 5000 ms delay between consecutive
requests.  (The geminiService.ts variant violates the sequential-delay
part; see the counterexample.) -/
theorem thematic_sequential_order_and_delays (userTheme : String)
    (outcomes : Nat → Outcome) (ds : Nat → String)
    (hne : ¬ jsTrim userTheme = "")
    (hok : ∀ k, outcomes k = Outcome.ok (ds k))
    (hnodup : (Part000.thematicPrompts userTheme).Nodup) :
    Part000.generateThematicImages outcomes userTheme
      = ⟨[Ev.call ((Part000.thematicPrompts userTheme).getD 0 ""),
          Ev.wait 5000,
          Ev.call ((Part000.thematicPrompts userTheme).getD 1 ""),
          Ev.wait 5000,
          Ev.call ((Part000.thematicPrompts userTheme).getD 2 "")],
         Except.ok [ds 0, ds 1, ds 2]⟩ ∧
    numCalls (Part000.generateThematicImages outcomes userTheme).trace = 3 ∧
    waitsBetweenCalls (Part000.generateThematicImages outcomes userTheme).trace
      = [5000, 5000] := by
  obtain ⟨p, q, r, hps⟩ : ∃ p q r, Part000.thematicPrompts userTheme = [p, q, r] :=
    ⟨_, _, _, rfl⟩
  rw [hps] at hnodup
  simp only [List.nodup_cons, List.mem_cons, List.mem_singleton, List.not_mem_nil,
    not_or, List.nodup_nil, and_true, not_false_iff] at hnodup
  obtain ⟨⟨hpq, hpr⟩, hqr⟩ := hnodup
  have hloop := Part000.thematicLoop_three outcomes ds hok p q r hpq hpr hqr
  have hmain : Part000.generateThematicImages outcomes userTheme
      = ⟨[Ev.call p, Ev.wait 5000, Ev.call q, Ev.wait 5000, Ev.call r],
         Except.ok [ds 0, ds 1, ds 2]⟩ := by
    simp only [Part000.generateThematicImages]
    rw [if_neg hne, hps, hloop]
  refine ⟨?_, ?_, ?_⟩
  · rw [hmain, hps]
    rfl
  · rw [hmain]
    simp
  · rw [hmain]
    simp [waitsBetweenCalls, waitsBetweenCallsAux]

theorem thematic_sequential_order_and_delays_witness :
    (¬ jsTrim "Otoño" = "" ∧
      (∀ k, (fun _ : Nat => Outcome.ok "img") k
        = Outcome.ok ((fun _ : Nat => "img") k)) ∧
      (Part000.thematicPrompts "Otoño").Nodup) ∧
    numCalls (Part000.generateThematicImages (fun _ : Nat => Outcome.ok "img")
        "Otoño").trace = 3 ∧
    waitsBetweenCalls (Part000.generateThematicImages (fun _ : Nat => Outcome.ok "img")
        "Otoño").trace = [5000, 5000] :=
  ⟨⟨by decide, fun _ => rfl, by decide⟩,
    (thematic_sequential_order_and_delays "Otoño" (fun _ : Nat => Outcome.ok "img")
      (fun _ : Nat => "img") (by decide) (fun _ => rfl) (by decide)).2⟩

/-- C3 (counterexample): the geminiService.ts `generateThematicImages`
(lines 100-133) does not issue its three thematic requests sequentially
with a 5000 ms delay between them: it starts all three `generateContent`
promises before awaiting any of them (`prompts.map` then `Promise.all`),
so the trace holds three consecutive requests with no delay between
consecutive requests. -/
theorem thematic_delay_claim_fails_on_gs :
    (GS.generateThematicImages "Otoño"
        (fun _ : Nat => Except.ok (some "img"))).trace
      = (GS.thematicPrompts "Otoño").map Ev.call ∧
    numCalls (GS.generateThematicImages "Otoño"
        (fun _ : Nat => Except.ok (some "img"))).trace = 3 ∧
    waitsBetweenCalls (GS.generateThematicImages "Otoño"
        (fun _ : Nat => Except.ok (some "img"))).trace = [0, 0] ∧
    ¬ (∀ w ∈ waitsBetweenCalls (GS.generateThematicImages "Otoño"
        (fun _ : Nat => Except.ok (some "img"))).trace, 5000 ≤ w) := by
  refine ⟨rfl, by decide, by decide, ?_⟩
  intro hall
  exact absurd (hall 0 (by decide)) (by decide)

/-- C4 (counterexample): in the part_000/part_002 sequential variant, a
thematic generation where the first variant call succeeds and the second
fails does not return the partial set of successes: the error aborts the
loop, is reworded by the catch, and the whole operation fails. -/
theorem partial_success_claim_fails_on_part000 :
    (Part000.generateThematicImages
        (fun k : Nat => if k = 0 then Outcome.ok "a" else Outcome.err "boom")
        "Otoño").result
      = Except.error "Error al generar imágenes de temporada: boom" ∧
    ∀ imgs, (Part000.generateThematicImages
        (fun k : Nat => if k = 0 then Outcome.ok "a" else Outcome.err "boom")
        "Otoño").result ≠ Except.ok imgs := by
  have h1 : (Part000.generateThematicImages
      (fun k : Nat => if k = 0 then Outcome.ok "a" else Outcome.err "boom")
      "Otoño").result
      = Except.error "Error al generar imágenes de temporada: boom" := by
    decide
  refine ⟨h1, ?_⟩
  intro imgs hc
  rw [h1] at hc
  exact Except.noConfusion hc

/-- C4 (amended): for the geminiService.ts `generateThematicImages`, when
all three variant calls resolve, the responses without extractable image
data are dropped: if at least one image remains the operation returns the
partial set (fewer than 3 artifacts when some response lacked data), and
if zero remain it fails with an error.  (In the part_000/part_002 variant
a single failed call aborts the whole operation — see the counterexample —
and the part_001 variant returns an empty list instead of an error when
all fail.) -/
theorem gs_thematic_partial_success (userTheme : String)
    (res : Nat → Except String (Option String)) (o0 o1 o2 : Option String)
    (h0 : res 0 = Except.ok o0) (h1 : res 1 = Except.ok o1)
    (h2 : res 2 = Except.ok o2) :
    (([o0, o1, o2].filterMap id) ≠ [] →
      (GS.generateThematicImages userTheme res).result
        = Except.ok ([o0, o1, o2].filterMap id)) ∧
    (([o0, o1, o2].filterMap id) = [] →
      (GS.generateThematicImages userTheme res).result
        = Except.error GS.noImagesMsg) ∧
    ((o0 = none ∨ o1 = none ∨ o2 = none) →
      ([o0, o1, o2].filterMap id).length < 3) := by
  have hpa : GS.promiseAll res 3 = Except.ok [o0, o1, o2] := by
    simp [GS.promiseAll, h0, h1, h2]
  have hlen : (GS.thematicPrompts userTheme).length = 3 := by
    simp [GS.thematicPrompts, GS.creativeStyles, Part000.creativeStyles]
  refine ⟨?_, ?_, ?_⟩
  · intro hne
    simp only [GS.generateThematicImages, hlen, hpa]
    rw [if_neg (by simpa [List.isEmpty_iff] using hne)]
  · intro he
    simp only [GS.generateThematicImages, hlen, hpa]
    rw [if_pos (by simpa [List.isEmpty_iff] using he)]
  · intro hnone
    cases o0 <;> cases o1 <;> cases o2 <;> simp_all [List.filterMap]

theorem gs_thematic_partial_success_witness :
    ((fun k : Nat => (Except.ok (if k = 1 then none else some "img") :
          Except String (Option String))) 0 = Except.ok (some "img") ∧
      (fun k : Nat => (Except.ok (if k = 1 then none else some "img") :
          Except String (Option String))) 1 = Except.ok none ∧
      (fun k : Nat => (Except.ok (if k = 1 then none else some "img") :
          Except String (Option String))) 2 = Except.ok (some "img")) ∧
    (GS.generateThematicImages "Otoño"
        (fun k : Nat => (Except.ok (if k = 1 then none else some "img") :
          Except String (Option String)))).result
      = Except.ok ["img", "img"] ∧
    (["img", "img"] : List String).length < 3 :=
  ⟨⟨rfl, rfl, rfl⟩,
    (gs_thematic_partial_success "Otoño"
      (fun k : Nat => (Except.ok (if k = 1 then none else some "img") :
        Except String (Option String)))
      (some "img") none (some "img") rfl rfl rfl).1 (by decide),
    (gs_thematic_partial_success "Otoño"
      (fun k : Nat => (Except.ok (if k = 1 then none else some "img") :
        Except String (Option String)))
      (some "img") none (some "img") rfl rfl rfl).2.2 (Or.inr (Or.inl rfl))⟩

/-- The opaque video operation handle as far as this system inspects it:
the provider-reported `done` flag, the result locator
(`response.generatedVideos[0].video.uri`), and the provider-reported
`error`, each possibly absent. -/
structure VideoOp where
  done : Bool
  uri : Option String
  error : Option String
deriving DecidableEq

namespace AppMain

/-- The `status` union of the reducer-based App (src/App.tsx, first
document, lines 14-20). -/
inductive JStatus where
  | pending
  | processing
  | processing_more
  | success
  | error
deriving DecidableEq

/-- `ImageFile` of src/App.tsx (first document). -/
structure ImageFile where
  base64 : String
  mimeType : String
  name : String
deriving DecidableEq

/-- `ImageJob` of src/App.tsx (first document). -/
structure ImageJob where
  id : String
  originalImage : ImageFile
  status : JStatus
  processedImages : List String
  error : Option String
deriving DecidableEq

/-- `State` of src/App.tsx (first document). -/
structure AppState where
  jobs : List ImageJob
  backgroundPrompt : String
  isBatchProcessing : Bool
deriving DecidableEq

/-- `Action` of src/App.tsx (first document).  `crypto.randomUUID` is
external entropy, so `uploadBatch` carries the generated ids with the
files. -/
inductive Action where
  | uploadBatch (payload : List (String × ImageFile))
  | setBackgroundPrompt (prompt : String)
  | processJobStart (jobId : String)
  | processJobMoreStart (jobId : String)
  | processJobSuccess (jobId : String) (processedImages : List String)
  | processJobError (jobId : String) (error : String)
  | startBatchProcess
  | endBatchProcess
  | reset

/-- `initialState` of src/App.tsx (first document). -/
def initialState : AppState := ⟨[], "", false⟩

/-- `appReducer` of src/App.tsx (first document, lines 47-100). -/
def appReducer (state : AppState) : Action → AppState
  | Action.uploadBatch payload =>
    { initialState with
      backgroundPrompt := state.backgroundPrompt,
      jobs := payload.map (fun pr =>
        ⟨pr.1, pr.2, JStatus.pending, [], none⟩) }
  | Action.setBackgroundPrompt p => { state with backgroundPrompt := p }
  | Action.processJobStart jobId =>
    { state with jobs := state.jobs.map (fun job =>
        if job.id == jobId then
          { job with status := JStatus.processing, error := none }
        else job) }
  | Action.processJobMoreStart jobId =>
    { state with jobs := state.jobs.map (fun job =>
        if job.id == jobId then
          { job with status := JStatus.processing_more, error := none }
        else job) }
  | Action.processJobSuccess jobId processedImages =>
    { state with jobs := state.jobs.map (fun job =>
        if job.id == jobId then
          { job with status := JStatus.success, processedImages := processedImages }
        else job) }
  | Action.processJobError jobId e =>
    { state with jobs := state.jobs.map (fun job =>
        if job.id == jobId then
          { job with status := JStatus.error, error := some e }
        else job) }
  | Action.startBatchProcess => { state with isBatchProcessing := true }
  | Action.endBatchProcess => { state with isBatchProcessing := false }
  | Action.reset => initialState

/-- `handleProcessJob` of src/App.tsx (first document, lines 302-314):
looks the job up, returns without dispatching when the job is missing,
the prompt is empty, or the job is already in an in-flight processing
state; otherwise dispatches `PROCESS_JOB_START`, performs one
`enhanceJewelryImage` call (outcome `callResult`), and dispatches
`PROCESS_JOB_SUCCESS` or `PROCESS_JOB_ERROR`.  The second component
counts the provider calls issued. -/
def handleProcessJob (state : AppState) (jobId : String)
    (callResult : Except String (List String)) : AppState × Nat :=
  match state.jobs.find? (fun j => j.id == jobId) with
  | none => (state, 0)
  | some job =>
    if jsTrim state.backgroundPrompt = "" ∨ job.status = JStatus.processing
        ∨ job.status = JStatus.processing_more then (state, 0)
    else
      let st1 := appReducer state (Action.processJobStart jobId)
      match callResult with
      | Except.ok results =>
        (appReducer st1 (Action.processJobSuccess jobId
          (results.map (fun r => "data:image/png;base64," ++ r))), 1)
      | Except.error m => (appReducer st1 (Action.processJobError jobId m), 1)

end AppMain

namespace AppVideo

/-- `LoadingState` of src/App.tsx (second document). -/
structure LoadingState where
  catalog : Bool
  thematic : Bool
  video : Bool
deriving DecidableEq

/-- `VideoResult` of src/App.tsx (second document): the status string the
client stores, the signed video URL when done, and the last operation
handle while polling. -/
structure CVideoResult where
  status : String
  videoUrl : Option String
  operation : Option VideoOp
deriving DecidableEq

/-- `ImageJob` of src/App.tsx (second document, lines 476-484). -/
structure VJob where
  id : String
  catalogImage : Option String
  thematicImages : List String
  videoResult : Option CVideoResult
  loading : LoadingState
  error : Option String
deriving DecidableEq

/-- The `type` parameter of `createApiHandler` (a key of `LoadingState`). -/
inductive GenType where
  | catalog
  | thematic
  | video
deriving DecidableEq

/-- `{ ...job.loading, [type]: b }`. -/
def setLoading (t : GenType) (l : LoadingState) (b : Bool) : LoadingState :=
  match t with
  | GenType.catalog => { l with catalog := b }
  | GenType.thematic => { l with thematic := b }
  | GenType.video => { l with video := b }

/-- The `updateJob` issued when `createApiHandler` starts a generation
(src/App.tsx second document, lines 608-614): set the loading flag, clear
the error, and clear the result artifact of the requested mode. -/
def apiStartUpdate (t : GenType) (job : VJob) : VJob :=
  { job with
    loading := setLoading t job.loading true,
    error := none,
    catalogImage := if t = GenType.catalog then none else job.catalogImage,
    thematicImages := if t = GenType.thematic then [] else job.thematicImages,
    videoResult := if t = GenType.video then none else job.videoResult }

end AppVideo

/-- C5: triggering generation for a job whose status is already an
in-flight processing state (`processing` or `processing_more`) is a
no-op: `handleProcessJob` returns before dispatching, so no provider call
is started (call count 0) and the state is unchanged; hence at most one
generation call is in flight per job. -/
theorem single_flight_trigger_noop (st : AppMain.AppState) (jobId : String)
    (job : AppMain.ImageJob) (callResult : Except String (List String))
    (hfind : st.jobs.find? (fun j => j.id == jobId) = some job)
    (hst : job.status = AppMain.JStatus.processing
      ∨ job.status = AppMain.JStatus.processing_more) :
    AppMain.handleProcessJob st jobId callResult = (st, 0) := by
  simp only [AppMain.handleProcessJob, hfind]
  rw [if_pos (Or.inr (hst.imp (fun h => h) (fun h => h)))]

theorem single_flight_trigger_noop_witness :
    ((AppMain.AppState.mk
        [⟨"j1", ⟨"b", "image/png", "f.png"⟩, AppMain.JStatus.processing, [], none⟩]
        "marble" false).jobs.find? (fun j => j.id == "j1")
      = some ⟨"j1", ⟨"b", "image/png", "f.png"⟩, AppMain.JStatus.processing, [], none⟩) ∧
    AppMain.handleProcessJob
      (AppMain.AppState.mk
        [⟨"j1", ⟨"b", "image/png", "f.png"⟩, AppMain.JStatus.processing, [], none⟩]
        "marble" false)
      "j1" (Except.ok ["r"])
      = (AppMain.AppState.mk
          [⟨"j1", ⟨"b", "image/png", "f.png"⟩, AppMain.JStatus.processing, [], none⟩]
          "marble" false, 0) :=
  ⟨by decide,
    single_flight_trigger_noop
      (AppMain.AppState.mk
        [⟨"j1", ⟨"b", "image/png", "f.png"⟩, AppMain.JStatus.processing, [], none⟩]
        "marble" false)
      "j1"
      ⟨"j1", ⟨"b", "image/png", "f.png"⟩, AppMain.JStatus.processing, [], none⟩
      (Except.ok ["r"]) (by decide) (Or.inl rfl)⟩

/-- C8 (counterexample): in the reducer-based App, the transition that
enters `processing` sets the error to null but does not clear the
previous result artifacts: a job holding `["old"]` still holds `["old"]`
after `PROCESS_JOB_START`. -/
theorem processing_start_keeps_artifacts_in_reducer :
    (AppMain.appReducer
        (AppMain.AppState.mk
          [⟨"j1", ⟨"b", "image/png", "f.png"⟩, AppMain.JStatus.error, ["old"], some "e"⟩]
          "marble" false)
        (AppMain.Action.processJobStart "j1")).jobs
      = [⟨"j1", ⟨"b", "image/png", "f.png"⟩, AppMain.JStatus.processing, ["old"], none⟩] ∧
    ∀ j ∈ (AppMain.appReducer
        (AppMain.AppState.mk
          [⟨"j1", ⟨"b", "image/png", "f.png"⟩, AppMain.JStatus.error, ["old"], some "e"⟩]
          "marble" false)
        (AppMain.Action.processJobStart "j1")).jobs,
      j.processedImages ≠ [] := by
  refine ⟨by decide, ?_⟩
  intro j hj
  rw [show (AppMain.appReducer
      (AppMain.AppState.mk
        [⟨"j1", ⟨"b", "image/png", "f.png"⟩, AppMain.JStatus.error, ["old"], some "e"⟩]
        "marble" false)
      (AppMain.Action.processJobStart "j1")).jobs
    = [⟨"j1", ⟨"b", "image/png", "f.png"⟩, AppMain.JStatus.processing, ["old"], none⟩]
    from by decide] at hj
  simp only [List.mem_singleton] at hj
  subst hj
  decide

/-- C8 (amended): the transition entering `processing`/`processing_more`
in the reducer-based App sets the error to null but leaves the previous
`processedImages` unchanged; clearing the previous result artifact for
the requested mode (together with clearing the error) is done by the
other App variant in `createApiHandler`, whose start update clears
exactly the artifact of the requested mode. -/
theorem processing_entry_clears_error_and_mode_artifacts (st : AppMain.AppState)
    (jobId : String) (j : AppMain.ImageJob)
    (hmem : j ∈ st.jobs) (hid : j.id = jobId) :
    ({ j with status := AppMain.JStatus.processing, error := none }
        ∈ (AppMain.appReducer st (AppMain.Action.processJobStart jobId)).jobs) ∧
    ({ j with status := AppMain.JStatus.processing_more, error := none }
        ∈ (AppMain.appReducer st (AppMain.Action.processJobMoreStart jobId)).jobs) ∧
    (∀ (t : AppVideo.GenType) (job : AppVideo.VJob),
      (AppVideo.apiStartUpdate t job).error = none ∧
      (t = AppVideo.GenType.catalog →
        (AppVideo.apiStartUpdate t job).catalogImage = none) ∧
      (t = AppVideo.GenType.thematic →
        (AppVideo.apiStartUpdate t job).thematicImages = []) ∧
      (t = AppVideo.GenType.video →
        (AppVideo.apiStartUpdate t job).videoResult = none)) := by
  have hb : (j.id == jobId) = true := by simp [hid]
  refine ⟨?_, ?_, ?_⟩
  · have h1 := List.mem_map_of_mem (fun job =>
      if job.id == jobId then
        { job with status := AppMain.JStatus.processing, error := none }
      else job) hmem
    simpa [AppMain.appReducer, hb] using h1
  · have h1 := List.mem_map_of_mem (fun job =>
      if job.id == jobId then
        { job with status := AppMain.JStatus.processing_more, error := none }
      else job) hmem
    simpa [AppMain.appReducer, hb] using h1
  · intro t job
    cases t <;> simp [AppVideo.apiStartUpdate, AppVideo.setLoading]

theorem processing_entry_clears_error_and_mode_artifacts_witness :
    ((⟨"j1", ⟨"b", "image/png", "f.png"⟩, AppMain.JStatus.pending, [], some "e"⟩ :
        AppMain.ImageJob)
      ∈ (AppMain.AppState.mk
          [⟨"j1", ⟨"b", "image/png", "f.png"⟩, AppMain.JStatus.pending, [], some "e"⟩]
          "marble" false).jobs) ∧
    ({ (⟨"j1", ⟨"b", "image/png", "f.png"⟩, AppMain.JStatus.pending, [], some "e"⟩ :
        AppMain.ImageJob) with
        status := AppMain.JStatus.processing, error := none }
      ∈ (AppMain.appReducer
          (AppMain.AppState.mk
            [⟨"j1", ⟨"b", "image/png", "f.png"⟩, AppMain.JStatus.pending, [], some "e"⟩]
            "marble" false)
          (AppMain.Action.processJobStart "j1")).jobs) :=
  ⟨by decide,
    (processing_entry_clears_error_and_mode_artifacts
      (AppMain.AppState.mk
        [⟨"j1", ⟨"b", "image/png", "f.png"⟩, AppMain.JStatus.pending, [], some "e"⟩]
        "marble" false)
      "j1"
      ⟨"j1", ⟨"b", "image/png", "f.png"⟩, AppMain.JStatus.pending, [], some "e"⟩
      (by decide) rfl).1⟩

namespace GS

/-- The JSON value returned by `checkVideoOperation`. -/
structure CheckResult where
  status : String
  videoUrl : Option String
  operation : Option VideoOp
deriving DecidableEq

/-- Error thrown when no API key is available to sign the video URL
inside `checkVideoOperation`. -/
def noKeyMsg : String := "API_KEY is not available to create video download URL."

/-- `checkVideoOperation` of src/services/geminiService.ts lines 155-180:
not done ⇒ `processing` with the refreshed handle; done with a truthy
result locator ⇒ `done` with the locator signed by appending
`&key=<API_KEY>` (throwing when no key is configured); done with a
provider-reported error ⇒ `failed`; done otherwise ⇒ `done_no_uri`.
`op` is the refreshed operation returned by `getVideosOperation`; under
`jsTruthy op.uri` the locator is `op.uri.getD ""`. -/
def checkVideoOperation (apiKey : Option String) (op : VideoOp) :
    Except String CheckResult :=
  if op.done = false then Except.ok ⟨"processing", none, some op⟩
  else if jsTruthy op.uri then
    match apiKey with
    | none => Except.error noKeyMsg
    | some k => Except.ok ⟨"done", some (op.uri.getD "" ++ "&key=" ++ k), none⟩
  else if op.error.isSome then Except.ok ⟨"failed", none, some op⟩
  else Except.ok ⟨"done_no_uri", none, some op⟩

end GS

namespace VideoStatusApi

/-- 400 body for a missing operation. -/
def missingOpMsg : String := "Missing operation object"

/-- Error thrown when no API key is available in the handler. -/
def noKeySignMsg : String :=
  "API_KEY is not available on the server to sign the video URL."

/-- The `/api/video-status` handler (src/api/video-status.ts, first
document, lines 9-32): POST is assumed; a missing operation is a 400;
`checkVideoOperation` is called, and when its result is `done` with a
truthy `videoUrl`, the handler appends `&key=<API_KEY>` to it a second
time; a thrown error becomes a 500 with the message. -/
def handler (apiKey : Option String) (op : Option VideoOp) :
    Nat × Except String GS.CheckResult :=
  match op with
  | none => (400, Except.error missingOpMsg)
  | some o =>
    match GS.checkVideoOperation apiKey o with
    | Except.error m => (500, Except.error m)
    | Except.ok result =>
      if result.status = "done" ∧ jsTruthy result.videoUrl then
        match apiKey with
        | none => (500, Except.error noKeySignMsg)
        | some k =>
          (200, Except.ok { result with
            videoUrl := result.videoUrl.map (fun u => u ++ "&key=" ++ k) })
      else (200, Except.ok result)

end VideoStatusApi

namespace AppVideo

/-- Client-side error message for `done_no_uri`/`failed` poll responses. -/
def doneNoUriClientMsg : String :=
  "La generación del video finalizó, pero no se pudo obtener el resultado."

/-- What the client `fetch` of `/api/video-status` yields: the parsed JSON
on a 200 response, and a thrown `Server responded with <status>` error
otherwise. -/
def respOfHandler (p : Nat × Except String GS.CheckResult) :
    Except String GS.CheckResult :=
  match p with
  | (code, body) =>
    if code = 200 then body
    else Except.error ("Server responded with " ++ toString code)

/-- One execution of `checkVideoStatus` (src/App.tsx second document,
lines 510-531) for a job: nothing happens without a stored operation
handle; otherwise one fetch is issued (counted in the second component)
and the job is updated according to the response: `done` stores the
video URL and stops loading; `done_no_uri`/`failed` set the descriptive
error and drop the video result; any other status refreshes the stored
handle; a thrown fetch error also sets an error and drops the result. -/
def checkVideoStatusTick (job : VJob) (resp : Except String GS.CheckResult) :
    VJob × Nat :=
  match job.videoResult with
  | none => (job, 0)
  | some vr =>
    match vr.operation with
    | none => (job, 0)
    | some _ =>
      match resp with
      | Except.error m =>
        ({ job with
            error := some ("Error al verificar el estado del video: " ++ m),
            videoResult := none,
            loading := { job.loading with video := false } }, 1)
      | Except.ok result =>
        if result.status = "done" then
          ({ job with
              videoResult := some ⟨"done", result.videoUrl, none⟩,
              loading := { job.loading with video := false } }, 1)
        else if result.status = "done_no_uri" ∨ result.status = "failed" then
          ({ job with
              error := some doneNoUriClientMsg,
              videoResult := none,
              loading := { job.loading with video := false } }, 1)
        else
          ({ job with videoResult := some { vr with operation := result.operation } }, 1)

/-- The interval-reconciliation of the poll effect (lines 534-542): after
each state change, a job keeps its interval exactly when its video result
is in status `processing`. -/
def jobPolling (job : VJob) : Bool :=
  match job.videoResult with
  | some vr => vr.status == "processing"
  | none => false

/-- A run of the poll loop for one job: while the interval is active,
consume the next poll response, update the job, reconcile the interval,
and continue; the third component counts the fetches issued. -/
def pollRun : VJob → Bool → List (Except String GS.CheckResult) → VJob × Bool × Nat
  | job, false, _ => (job, false, 0)
  | job, true, [] => (job, true, 0)
  | job, true, r :: rest =>
    let p := checkVideoStatusTick job r
    let a1 := jobPolling p.1
    let q := pollRun p.1 a1 rest
    (q.1, q.2.1, p.2 + q.2.2)

end AppVideo

example :
    AppVideo.pollRun
      ⟨"j1", none, [], some ⟨"processing", none, some ⟨false, none, none⟩⟩,
        ⟨false, false, true⟩, none⟩
      true
      [AppVideo.respOfHandler (VideoStatusApi.handler (some "K")
          (some ⟨true, none, none⟩)),
        Except.ok ⟨"processing", none, some ⟨false, none, none⟩⟩]
      = (⟨"j1", none, [], none, ⟨false, false, false⟩,
          some AppVideo.doneNoUriClientMsg⟩, false, 1) := by
  decide

/-- C10: for a polled operation that is done with a video uri, the
`/api/video-status` handler returns a `videoUrl` equal to the provider
uri with `&key=` and the server API key appended twice — once inside
`checkVideoOperation` and once by the handler — so the server secret
API key appears (twice) in the client-visible URL. -/
theorem video_status_key_appended_twice (k uri : String) (e : Option String)
    (huri : ¬ uri = "") :
    VideoStatusApi.handler (some k) (some ⟨true, some uri, e⟩)
      = (200, Except.ok ⟨"done", some (uri ++ "&key=" ++ k ++ "&key=" ++ k), none⟩) := by
  have hcvo : GS.checkVideoOperation (some k) ⟨true, some uri, e⟩
      = Except.ok ⟨"done", some (uri ++ "&key=" ++ k), none⟩ := by
    simp [GS.checkVideoOperation, jsTruthy, huri]
  have hne : ¬ (uri ++ "&key=" ++ k) = "" := by
    intro hc
    have hlen := congrArg String.length hc
    have h5 : ("&key=" : String).length = 5 := rfl
    have h0 : ("" : String).length = 0 := rfl
    rw [String.length_append, String.length_append, h5, h0] at hlen
    omega
  simp only [VideoStatusApi.handler, hcvo]
  rw [if_pos ⟨by trivial, by simp [jsTruthy, hne]⟩]
  rfl

theorem video_status_key_appended_twice_witness :
    (¬ ("https://video.example/file" : String) = "") ∧
    VideoStatusApi.handler (some "SECRET")
        (some ⟨true, some "https://video.example/file", none⟩)
      = (200, Except.ok ⟨"done",
          some ("https://video.example/file" ++ "&key=" ++ "SECRET"
            ++ "&key=" ++ "SECRET"), none⟩) :=
  ⟨by decide,
    video_status_key_appended_twice "SECRET" "https://video.example/file" none
      (by decide)⟩

/-- C9: for a job polling a started video operation, when a poll response
reports the operation done with no result locator (and no provider
error), the server returns `done_no_uri`, the client transitions the job
to the error state with the descriptive message, drops the video result,
and — since the interval-reconciliation clears the timer of any job not
in `processing` — exactly one poll fetch happens, whatever further
responses would have been available. -/
theorem done_without_locator_stops_polling
    (job : AppVideo.VJob) (vr : AppVideo.CVideoResult) (op0 opS : VideoOp)
    (rest : List (Except String GS.CheckResult)) (k : String)
    (hvr : job.videoResult = some vr)
    (hop : vr.operation = some op0)
    (hdone : opS.done = true) (huri : opS.uri = none) (herr : opS.error = none) :
    AppVideo.pollRun job true
        (AppVideo.respOfHandler (VideoStatusApi.handler (some k) (some opS)) :: rest)
      = ({ job with
            error := some AppVideo.doneNoUriClientMsg,
            videoResult := none,
            loading := { job.loading with video := false } }, false, 1) := by
  have hcvo : GS.checkVideoOperation (some k) opS
      = Except.ok ⟨"done_no_uri", none, some opS⟩ := by
    simp [GS.checkVideoOperation, hdone, huri, herr, jsTruthy]
  have hhandler : VideoStatusApi.handler (some k) (some opS)
      = (200, Except.ok ⟨"done_no_uri", none, some opS⟩) := by
    simp only [VideoStatusApi.handler, hcvo]
    rw [if_neg]
    rintro ⟨h1, -⟩
    exact absurd h1 (by decide)
  have hresp : AppVideo.respOfHandler (VideoStatusApi.handler (some k) (some opS))
      = Except.ok ⟨"done_no_uri", none, some opS⟩ := by
    rw [hhandler]
    rfl
  have htick : AppVideo.checkVideoStatusTick job
      (Except.ok ⟨"done_no_uri", none, some opS⟩)
      = ({ job with
            error := some AppVideo.doneNoUriClientMsg,
            videoResult := none,
            loading := { job.loading with video := false } }, 1) := by
    simp only [AppVideo.checkVideoStatusTick, hvr, hop]
    rw [if_neg (by exact fun h1 => absurd h1 (by decide)), if_pos (Or.inl (by trivial))]
  simp only [AppVideo.pollRun, hresp, htick, AppVideo.jobPolling]

theorem done_without_locator_stops_polling_witness :
    ((AppVideo.VJob.mk "j1" none [] (some ⟨"processing", none,
        some ⟨false, none, none⟩⟩) ⟨false, false, true⟩ none).videoResult
      = some ⟨"processing", none, some ⟨false, none, none⟩⟩ ∧
      (VideoOp.mk true none none).done = true) ∧
    AppVideo.pollRun
      (AppVideo.VJob.mk "j1" none [] (some ⟨"processing", none,
        some ⟨false, none, none⟩⟩) ⟨false, false, true⟩ none)
      true
      (AppVideo.respOfHandler (VideoStatusApi.handler (some "K")
          (some ⟨true, none, none⟩))
        :: [Except.ok ⟨"processing", none, some ⟨false, none, none⟩⟩])
      = (⟨"j1", none, [], none, ⟨false, false, false⟩,
          some AppVideo.doneNoUriClientMsg⟩, false, 1) :=
  ⟨⟨rfl, rfl⟩,
    done_without_locator_stops_polling
      (AppVideo.VJob.mk "j1" none [] (some ⟨"processing", none,
        some ⟨false, none, none⟩⟩) ⟨false, false, true⟩ none)
      ⟨"processing", none, some ⟨false, none, none⟩⟩
      ⟨false, none, none⟩ ⟨true, none, none⟩
      [Except.ok ⟨"processing", none, some ⟨false, none, none⟩⟩]
      "K" rfl rfl rfl rfl rfl⟩
